import Mathlib

set_option maxHeartbeats 1000000

/-!
Shallow embedding of the netlify-github-status repository
(src/netlify/functions/deployment.mts, src/netlify/functions/netlify.mts,
src/netlify/functions/github.mts) and proofs of the specification claims.

External collaborators (JSON parsing, JWT signature verification, the WHATWG
URL parser, the Netlify fetch API and the GitHub REST/GraphQL API) are
modelled as explicit parameters; the GitHub remote store is an explicit
state value threaded through the handler.  ISO timestamp strings compared
via `new Date(x).getTime()` are modelled as `Nat` milliseconds since epoch.
-/

namespace NGS

/-- Embedding of the `Response` class from netlify.mts: an outcome value
carrying a message and an HTTP status code (defaults: `""` and 500). -/
structure Response where
  message : String := ""
  code : Nat := 500
deriving Repr, DecidableEq

/-- Embedding of the `NetlifyDeploy` payload type from netlify.mts.
Nullable/possibly-missing fields become `Option`; `updated_at` is the
millisecond value `new Date(deploy.updated_at).getTime()` would produce.
`id` is `Option String` because a parsed JSON body may lack it (this is
exactly what `verifyAndParse` checks). -/
structure NetlifyDeploy where
  id : Option String := none
  state : Option String := none
  name : Option String := none
  branch : Option String := none
  commit_ref : Option String := none
  commit_url : Option String := none
  context : Option String := none
  error_message : Option String := none
  updated_at : Option Nat := none
  url : Option String := none
  deploy_ssl_url : Option String := none
deriving Repr, DecidableEq

/-- A value thrown by the handler code: either a classified `Response`
(the repository's own error taxonomy) or a plain JavaScript `Error`
(for example the `TypeError` thrown by `new URL` on an unparseable
string), carrying its message. -/
inductive Thrown where
  | resp (r : Response)
  | jsErr (message : String)
deriving Repr, DecidableEq

/-- The parts of the incoming Netlify handler event that the code reads:
the raw request body and the `x-webhook-signature` header. -/
structure HandlerEvent where
  body : Option String := none
  signature : Option String := none
deriving Repr, DecidableEq

/-- Result of `new URL(s)` when it succeeds: the fields the code reads. -/
structure URLParts where
  hostname : String
  pathname : String
deriving Repr, DecidableEq

/-- Repository identity `{ owner, repo }` from github.mts. -/
structure RepoInfo where
  owner : String
  repo : String
deriving Repr, DecidableEq

/-- A commit status record stored on the GitHub side.  `createdAt` is the
server-assigned creation timestamp that the GraphQL query returns. -/
structure CommitStatusRec where
  owner : String
  repo : String
  sha : String
  context : String
  state : String
  description : String
  target_url : String
  createdAt : Nat
deriving Repr, DecidableEq

/-- A GitHub deployment record.  `updated_at` is the server-assigned
last-update timestamp read back by `listDeployments`. -/
structure DeploymentRec where
  id : Nat
  owner : String
  repo : String
  task : String
  environment : String
  ref : String
  updated_at : Nat
deriving Repr, DecidableEq

/-- A GitHub deployment status record (append-only). -/
structure DeploymentStatusRec where
  owner : String
  repo : String
  deployment_id : Nat
  state : String
  log_url : String
  environment_url : Option String
  description : String
deriving Repr, DecidableEq

/-- The remote GitHub store observed and mutated by the handler.
Lists are newest-first: creation prepends, and lookups return the first
(most recent) match, exactly what the GraphQL context query and
`listDeployments` with `per_page: 1` observe. -/
structure GitHubState where
  statuses : List CommitStatusRec := []
  deployments : List DeploymentRec := []
  deploymentStatuses : List DeploymentStatusRec := []
  nextDeploymentId : Nat := 1
deriving Repr, DecidableEq

/-- A remote write performed against the GitHub API during one invocation. -/
inductive WriteOp where
  | commitStatus (r : CommitStatusRec)
  | createDeployment (d : DeploymentRec)
  | deploymentStatus (s : DeploymentStatusRec)
deriving Repr, DecidableEq

/-- Whether a write op is a `createCommitStatus` call. -/
def WriteOp.isCommitStatus : WriteOp → Bool
  | .commitStatus _ => true
  | _ => false

/-- Whether a write op is a `createDeploymentStatus` call. -/
def WriteOp.isDeploymentStatus : WriteOp → Bool
  | .deploymentStatus _ => true
  | _ => false

/-- Whether a write op is a `createDeployment` call. -/
def WriteOp.isCreateDeployment : WriteOp → Bool
  | .createDeployment _ => true
  | _ => false

/-- The trace contains a commit-status write. -/
def hasCommitStatusWrite (ws : List WriteOp) : Bool := ws.any WriteOp.isCommitStatus

/-- The trace contains a deployment-status write. -/
def hasDeploymentStatusWrite (ws : List WriteOp) : Bool := ws.any WriteOp.isDeploymentStatus

/-- Embedding of `getCommitStatusDescription` from github.mts.
JS template: `Deployment failed ${errorMessage != null ? `: msg` : "."}` —
note the space after "failed" in both branches, and no context label. -/
def getCommitStatusDescription (state : String) (errorMessage : Option String) : String :=
  match state with
  | "building" => "Deploying..."
  | "ready" => "Deployment successful!"
  | _ =>
    "Deployment failed " ++
      (match errorMessage with
       | some m => ": " ++ m
       | none => ".")

/-- Split a character list at each occurrence of `sep`, keeping empty
pieces — the semantics of JavaScript `String.prototype.split` with a
single-character separator.  `acc` holds the current piece reversed. -/
def splitOnCharAux (sep : Char) : List Char → List Char → List String
  | [], acc => [String.mk acc.reverse]
  | c :: cs, acc =>
    if c = sep then String.mk acc.reverse :: splitOnCharAux sep cs []
    else splitOnCharAux sep cs (c :: acc)

/-- JavaScript `s.split("/")`. -/
def jsSplitSlash (s : String) : List String :=
  splitOnCharAux '/' s.data []

/-- The non-empty path segments: `url.pathname.split("/").filter(Boolean)`. -/
def pathSegments (pathname : String) : List String :=
  (jsSplitSlash pathname).filter (fun p => p ≠ "")

/-- Embedding of `parseRepoInfoFromCommitUrl` from github.mts.  The WHATWG
URL constructor is the external parameter `parseURL`; `none` models the
`TypeError` it throws on an unparseable string, which this function does
not catch.  Host or path-shape mismatches throw the classified
`Response` with the default code 500. -/
def parseRepoInfoFromCommitUrl (parseURL : String → Option URLParts)
    (commitUrl : String) : Except Thrown RepoInfo :=
  match parseURL commitUrl with
  | none => .error (.jsErr ("Invalid URL: " ++ commitUrl))
  | some url =>
    if url.hostname = "github.com" then
      match pathSegments url.pathname with
      | owner :: repo :: c :: _ =>
        if c = "commit" then .ok { owner := owner, repo := repo }
        else .error (.resp { message := "Unable to parse commit url " ++ commitUrl })
      | _ => .error (.resp { message := "Unable to parse commit url " ++ commitUrl })
    else .error (.resp { message := "Unable to parse commit url " ++ commitUrl })

/-- Whether the resolver failed with one of the code's own classified
`Response` errors (as opposed to an uncaught plain `Error`). -/
def isClassifiedError (r : Except Thrown RepoInfo) : Bool :=
  match r with
  | .error (.resp _) => true
  | _ => false

/-- Embedding of the commit-status state map in deployment.mts
(`{building: "pending", ready: "success", error: "failure"}[state] ?? "error"`). -/
def mapCommitState (s : String) : String :=
  if s = "building" then "pending"
  else if s = "ready" then "success"
  else if s = "error" then "failure"
  else "error"

/-- Embedding of the deployment-status state map in deployment.mts
(`{building: "in_progress", ready: "success", error: "failure"}[state] ?? "error"`). -/
def mapDeploymentState (s : String) : String :=
  if s = "building" then "in_progress"
  else if s = "ready" then "success"
  else if s = "error" then "failure"
  else "error"

/-- JavaScript `url.replace(/^http:\/\//g, "https://")` on the deploy's public URL. -/
def httpsify (s : String) : String :=
  if s.startsWith "http://" then "https://" ++ (s.drop 7) else s

/-- Embedding of `getCommitStatusByContext` from github.mts: the GraphQL
`status.context(name:)` field, i.e. the most recent status for the given
(repo, commit, context); our newest-first list makes this `find?`. -/
def getCommitStatusByContext (gh : GitHubState) (repoInfo : RepoInfo)
    (commitSha contextName : String) : Option CommitStatusRec :=
  gh.statuses.find? (fun s =>
    s.owner = repoInfo.owner && s.repo = repoInfo.repo &&
    s.sha = commitSha && s.context = contextName)

/-- Embedding of `octokit.rest.repos.listDeployments` with the given task
and environment filters and `per_page: 1`, taking `.data[0]`. -/
def listDeploymentsFirst (gh : GitHubState) (repoInfo : RepoInfo)
    (task environment : String) : Option DeploymentRec :=
  gh.deployments.find? (fun d =>
    d.owner = repoInfo.owner && d.repo = repoInfo.repo &&
    d.task = task && d.environment = environment)

/-- Number of deployment records with the given repo, task and environment. -/
def countDeployments (gh : GitHubState) (repoInfo : RepoInfo)
    (task environment : String) : Nat :=
  (gh.deployments.filter (fun d =>
    d.owner = repoInfo.owner && d.repo = repoInfo.repo &&
    d.task = task && d.environment = environment)).length

/-- Embedding of `verifyAndParse` from netlify.mts.  `secret` is
`process.env.JWT`; `validateSignature` is the external boolean signature
check (token, secret, body); `parseBody` is `JSON.parse` (with `none`
modelling a null/undefined parse result).  When no secret is configured
the function discards every parsed field except the deploy id. -/
def verifyAndParse (secret : Option String)
    (validateSignature : String → String → String → Bool)
    (parseBody : String → Option NetlifyDeploy)
    (event : HandlerEvent) : Except Response NetlifyDeploy :=
  match event.body with
  | none => .error { message := "Request body is empty.", code := 400 }
  | some body =>
    let sigCheck : Except Response Unit :=
      match secret with
      | none => .ok ()
      | some sec =>
        match event.signature with
        | none =>
          .error { message := "Request is missing the x-webhook-signature header.", code := 401 }
        | some sig =>
          if validateSignature sig sec body then .ok ()
          else .error { message := "Invalid signature.", code := 401 }
    match sigCheck with
    | .error e => .error e
    | .ok _ =>
      match parseBody body with
      | none => .error { message := "Failed to get deploy ID from request body.", code := 400 }
      | some deploy =>
        match deploy.id with
        | none => .error { message := "Failed to get deploy ID from request body.", code := 400 }
        | some deployId =>
          match secret with
          | none => .ok { id := some deployId }
          | some _ => .ok deploy

/-- Result of the external `fetch` of a Netlify deploy by id: either the
parsed JSON deploy, or a non-OK HTTP status. -/
inductive FetchResult where
  | ok (deploy : NetlifyDeploy)
  | notOk (status : Nat)
deriving Repr

/-- Embedding of `fetchNetlifyDeploy` from netlify.mts: return the data
unchanged when its `state` is non-null, otherwise fetch the deploy live
from the Netlify API by id, throwing a classified 502 on a non-OK
response.  (A missing id would interpolate as the string "undefined".) -/
def fetchNetlifyDeploy (fetchDeploy : String → FetchResult)
    (data : NetlifyDeploy) : Except Response NetlifyDeploy :=
  if data.state.isSome then .ok data
  else
    match fetchDeploy (data.id.getD "undefined") with
    | .ok deploy => .ok deploy
    | .notOk status =>
      .error { message := "Failed to fetch deploy details from Netlify API: " ++ toString status,
               code := 502 }

/-- The commit-status context label built by the handler:
`Netlify (<branch> - <site name>)`. -/
def statusContext (deploy : NetlifyDeploy) : String :=
  "Netlify (" ++ deploy.branch.getD "" ++ " - " ++ deploy.name.getD "" ++ ")"

/-- The deployment environment label built by the handler:
`<branch> - <site name>`. -/
def deployEnvironment (deploy : NetlifyDeploy) : String :=
  deploy.branch.getD "" ++ " - " ++ deploy.name.getD ""

/-- The idempotency task token `deploy:netlify-<external deploy id>`. -/
def deployTask (deploy : NetlifyDeploy) : String :=
  "deploy:netlify-" ++ deploy.id.getD "undefined"

/-- The notification timestamp the handler compares against:
`new Date(deploy.updated_at ?? 0).getTime()`, i.e. epoch when absent. -/
def notifTimestamp (deploy : NetlifyDeploy) : Nat :=
  deploy.updated_at.getD 0

/-- The commit-status record the handler would create for this deploy,
stamped with the server clock `now`. -/
def newCommitStatusRec (repoInfo : RepoInfo) (deploy : NetlifyDeploy)
    (now : Nat) : CommitStatusRec :=
  { owner := repoInfo.owner, repo := repoInfo.repo, sha := deploy.commit_ref.getD "",
    context := statusContext deploy,
    state := mapCommitState (deploy.state.getD ""),
    description := getCommitStatusDescription (deploy.state.getD "") deploy.error_message,
    target_url := "https://app.netlify.com/sites/" ++ deploy.name.getD "" ++
      "/deploys/" ++ deploy.id.getD "undefined",
    createdAt := now }

/-- The last-write-wins decision for the commit status: write exactly
when no status exists for the (commit, context) pair or its creation
timestamp is at most the notification timestamp. -/
def commitWriteCond (gh : GitHubState) (repoInfo : RepoInfo)
    (deploy : NetlifyDeploy) : Bool :=
  match getCommitStatusByContext gh repoInfo (deploy.commit_ref.getD "")
      (statusContext deploy) with
  | none => true
  | some s => decide (s.createdAt ≤ notifTimestamp deploy)

/-- The deployment record the handler would create, stamped with `now`
and numbered by the store's next id. -/
def newDeploymentRec (repoInfo : RepoInfo) (deploy : NetlifyDeploy)
    (gh : GitHubState) (now : Nat) : DeploymentRec :=
  { id := gh.nextDeploymentId, owner := repoInfo.owner, repo := repoInfo.repo,
    task := deployTask deploy, environment := deployEnvironment deploy,
    ref := deploy.commit_ref.getD "", updated_at := now }

/-- The deployment-status record the handler would create
(`createDeploymentStatus` arguments from deployment.mts lines 134-155):
state map with default "error", Netlify log URL, environment URL taken
from the https-forced public URL for production contexts with the
secure deploy URL as fallback, and the raw-state description. -/
def newDeploymentStatusRec (repoInfo : RepoInfo) (deploymentId : Nat)
    (deploy : NetlifyDeploy) : DeploymentStatusRec :=
  { owner := repoInfo.owner, repo := repoInfo.repo, deployment_id := deploymentId,
    state := mapDeploymentState (deploy.state.getD ""),
    log_url := "https://app.netlify.com/sites/" ++ deploy.name.getD "" ++
      "/deploys/" ++ deploy.id.getD "undefined",
    environment_url :=
      (if deploy.context = some "production" then deploy.url.map httpsify
       else none).orElse (fun _ => deploy.deploy_ssl_url),
    description := "Netlify deploy state: " ++ deploy.state.getD "" }

/-- Embedding of deployment.mts lines 39-76: look up the most recent
commit status for (commit, context); create a new one exactly when none
exists or its creation timestamp is at most the notification timestamp
(`commitWriteCond`).  Returns the updated store and the writes made. -/
def commitStatusPhase (gh : GitHubState) (now : Nat) (repoInfo : RepoInfo)
    (deploy : NetlifyDeploy) : GitHubState × List WriteOp :=
  if commitWriteCond gh repoInfo deploy then
    ({ gh with statuses := newCommitStatusRec repoInfo deploy now :: gh.statuses },
     [WriteOp.commitStatus (newCommitStatusRec repoInfo deploy now)])
  else
    (gh, [])

/-- Embedding of deployment.mts lines 78-168: find an existing deployment
by (task, environment) or create one (throwing a 502 `Response` when the
createDeployment response status is not 201), then write a deployment
status unless an existing deployment's own `updated_at` is strictly
newer than the notification timestamp. -/
def deploymentPhase (gh : GitHubState) (now createStatusCode : Nat)
    (repoInfo : RepoInfo) (deploy : NetlifyDeploy) :
    Thrown × GitHubState × List WriteOp :=
  let existingDeployment :=
    listDeploymentsFirst gh repoInfo (deployTask deploy) (deployEnvironment deploy)
  let deploymentResult : Except Response (GitHubState × DeploymentRec × List WriteOp) :=
    match existingDeployment with
    | some d => .ok (gh, d, [])
    | none =>
      if createStatusCode = 201 then
        .ok ({ gh with
               deployments := newDeploymentRec repoInfo deploy gh now :: gh.deployments,
               nextDeploymentId := gh.nextDeploymentId + 1 },
             newDeploymentRec repoInfo deploy gh now,
             [WriteOp.createDeployment (newDeploymentRec repoInfo deploy gh now)])
      else
        .error { message := "Failed to create deployment. Status: " ++ toString createStatusCode,
                 code := 502 }
  match deploymentResult with
  | .error e => (.resp e, gh, [])
  | .ok (gh2, deployment, writes2) =>
    let writeDeployStatus : Bool :=
      existingDeployment.isNone || decide (deployment.updated_at ≤ notifTimestamp deploy)
    let statusRec := newDeploymentStatusRec repoInfo deployment.id deploy
    let gh3 :=
      if writeDeployStatus then
        { gh2 with deploymentStatuses := statusRec :: gh2.deploymentStatuses }
      else gh2
    let writes3 : List WriteOp :=
      if writeDeployStatus then [WriteOp.deploymentStatus statusRec] else []
    (.resp { message := "GitHub deployment and commit status updated successfully.", code := 200 },
     gh3, writes2 ++ writes3)

/-- Embedding of deployment.mts lines 29-168 (after the null-field and
deploy-preview guards, repo-info parsing and client construction):
the commit-status reconciliation followed by the deployment
lookup/create and deployment-status reconciliation.  `now` is the
server clock stamping created records; `createStatusCode` is the HTTP
status of the `createDeployment` response (201 on success).  Returns
the thrown outcome, the final GitHub state, and the write trace. -/
def reconcileStatuses (gh : GitHubState) (now : Nat) (createStatusCode : Nat)
    (repoInfo : RepoInfo) (deploy : NetlifyDeploy) :
    Thrown × GitHubState × List WriteOp :=
  let r1 := commitStatusPhase gh now repoInfo deploy
  let r2 := deploymentPhase r1.1 now createStatusCode repoInfo deploy
  (r2.1, r2.2.1, r1.2 ++ r2.2.2)

/-- Embedding of deployment.mts lines 13-168 given the resolved deploy:
the null-field guard, the deploy-preview guard, repo-info parsing,
client construction (`getOctokitErr` models a thrown configuration
`Response` from `getOctokit`, `none` meaning success), then
`reconcileStatuses`. -/
def processDeploy (parseURL : String → Option URLParts)
    (getOctokitErr : Option Response) (createStatusCode : Nat) (now : Nat)
    (gh : GitHubState) (deploy : NetlifyDeploy) :
    Thrown × GitHubState × List WriteOp :=
  if deploy.state = none ∨ deploy.commit_ref = none ∨ deploy.commit_url = none ∨
      deploy.branch = none ∨ deploy.name = none then
    (.resp { message := "Skipped: No commit reference.", code := 200 }, gh, [])
  else if deploy.context = some "deploy-preview" then
    (.resp { message := "Skipped: Deploy preview.", code := 200 }, gh, [])
  else
    match parseRepoInfoFromCommitUrl parseURL (deploy.commit_url.getD "") with
    | .error out => (out, gh, [])
    | .ok repoInfo =>
      match getOctokitErr with
      | some e => (.resp e, gh, [])
      | none => reconcileStatuses gh now createStatusCode repoInfo deploy

/-- The external collaborators of one invocation: configured webhook
secret, signature verifier, JSON body parser, Netlify fetch, URL parser,
`getOctokit` outcome, `createDeployment` response status, server clock. -/
structure World where
  secret : Option String := none
  validateSignature : String → String → String → Bool := fun _ _ _ => false
  parseBody : String → Option NetlifyDeploy := fun _ => none
  fetchDeploy : String → FetchResult := fun _ => .notOk 404
  parseURL : String → Option URLParts := fun _ => none
  getOctokitErr : Option Response := none
  createStatusCode : Nat := 201
  now : Nat := 0

/-- Embedding of `innerHandler` from deployment.mts: verify and parse the
event, resolve the deploy (fetching it live when `state` is null), then
process it.  The function always ends in a thrown value. -/
def innerHandler (w : World) (gh : GitHubState) (event : HandlerEvent) :
    Thrown × GitHubState × List WriteOp :=
  match verifyAndParse w.secret w.validateSignature w.parseBody event with
  | .error r => (.resp r, gh, [])
  | .ok data =>
    match fetchNetlifyDeploy w.fetchDeploy data with
    | .error r => (.resp r, gh, [])
    | .ok deploy =>
      processDeploy w.parseURL w.getOctokitErr w.createStatusCode w.now gh deploy

/-- Log severity used by the boundary handler. -/
inductive LogLevel where
  | debug
  | error
deriving Repr, DecidableEq

/-- The HTTP result returned by the boundary handler. -/
structure HttpResult where
  statusCode : Nat
  body : Option String := none
deriving Repr, DecidableEq

/-- Embedding of the catch block of `handler` in deployment.mts:
a `Response` is converted to its carried code and message, logged at
debug level when the code is 200 and at error level otherwise; a plain
`Error` is converted to status 500 with its message and logged at error
level (the code logs `JSON.stringify(err)`, modelled by the carried
message).  Every log line is tagged with the per-invocation request id. -/
def handleThrown (reqId : String) (out : Thrown) :
    HttpResult × List (LogLevel × String) :=
  match out with
  | .resp r =>
    if r.code = 200 then
      ({ statusCode := r.code, body := some r.message },
       [(LogLevel.debug, "[" ++ reqId ++ "] " ++ r.message)])
    else
      ({ statusCode := r.code, body := some r.message },
       [(LogLevel.error, "[" ++ reqId ++ "] " ++ r.message)])
  | .jsErr msg =>
    ({ statusCode := 500, body := some msg },
     [(LogLevel.error, "[" ++ reqId ++ "] " ++ msg)])

/-- Embedding of the exported `handler` from deployment.mts: run
`innerHandler` and convert whatever it throws at the boundary. -/
def handler (w : World) (gh : GitHubState) (reqId : String)
    (event : HandlerEvent) :
    HttpResult × List (LogLevel × String) × GitHubState :=
  let out := innerHandler w gh event
  let conv := handleThrown reqId out.1
  (conv.1, conv.2, out.2.1)


/-- Sample repository identity for concrete evaluations. -/
def sampleRepo : RepoInfo := { owner := "o", repo := "r" }

/-- Sample notification with the older timestamp 50. -/
def sampleDeployT1 : NetlifyDeploy :=
  { id := some "dep1", state := some "building", name := some "site",
    branch := some "main", commit_ref := some "abc", updated_at := some 50 }

/-- Sample notification for the same deploy and environment with the newer
timestamp 100. -/
def sampleDeployT2 : NetlifyDeploy :=
  { id := some "dep1", state := some "ready", name := some "site",
    branch := some "main", commit_ref := some "abc", updated_at := some 100 }

/-- Sample notification with a null `updated_at`. -/
def sampleDeployNoTs : NetlifyDeploy :=
  { id := some "dep1", state := some "error", name := some "site",
    branch := some "main", commit_ref := some "abc" }

end NGS

namespace NGS

/-! ### Characterization lemmas for the two reconciliation phases -/

theorem commitStatusPhase_fst (gh : GitHubState) (now : Nat) (ri : RepoInfo)
    (dep : NetlifyDeploy) :
    (commitStatusPhase gh now ri dep).1 =
      if commitWriteCond gh ri dep then
        { gh with statuses := newCommitStatusRec ri dep now :: gh.statuses }
      else gh := by
  unfold commitStatusPhase
  split <;> simp_all

theorem commitStatusPhase_snd (gh : GitHubState) (now : Nat) (ri : RepoInfo)
    (dep : NetlifyDeploy) :
    (commitStatusPhase gh now ri dep).2 =
      if commitWriteCond gh ri dep then
        [WriteOp.commitStatus (newCommitStatusRec ri dep now)]
      else [] := by
  unfold commitStatusPhase
  split <;> simp_all

theorem commitStatusPhase_statuses (gh : GitHubState) (now : Nat) (ri : RepoInfo)
    (dep : NetlifyDeploy) :
    (commitStatusPhase gh now ri dep).1.statuses =
      if commitWriteCond gh ri dep then newCommitStatusRec ri dep now :: gh.statuses
      else gh.statuses := by
  rw [commitStatusPhase_fst]; split <;> rfl

theorem commitStatusPhase_deployments (gh : GitHubState) (now : Nat) (ri : RepoInfo)
    (dep : NetlifyDeploy) :
    (commitStatusPhase gh now ri dep).1.deployments = gh.deployments := by
  rw [commitStatusPhase_fst]; split <;> rfl

theorem commitStatusPhase_nextId (gh : GitHubState) (now : Nat) (ri : RepoInfo)
    (dep : NetlifyDeploy) :
    (commitStatusPhase gh now ri dep).1.nextDeploymentId = gh.nextDeploymentId := by
  rw [commitStatusPhase_fst]; split <;> rfl

theorem listDeploymentsFirst_commitStatusPhase (gh : GitHubState) (now : Nat)
    (ri ri2 : RepoInfo) (dep : NetlifyDeploy) (t e : String) :
    listDeploymentsFirst (commitStatusPhase gh now ri dep).1 ri2 t e =
      listDeploymentsFirst gh ri2 t e := by
  unfold listDeploymentsFirst
  rw [commitStatusPhase_deployments]

theorem newDeploymentRec_commitStatusPhase (gh : GitHubState) (now now2 : Nat)
    (ri ri2 : RepoInfo) (dep dep2 : NetlifyDeploy) :
    newDeploymentRec ri2 dep2 (commitStatusPhase gh now ri dep).1 now2 =
      newDeploymentRec ri2 dep2 gh now2 := by
  unfold newDeploymentRec
  rw [commitStatusPhase_nextId]

theorem deploymentPhase_statuses (gh : GitHubState) (now code : Nat) (ri : RepoInfo)
    (dep : NetlifyDeploy) :
    (deploymentPhase gh now code ri dep).2.1.statuses = gh.statuses := by
  unfold deploymentPhase
  cases hD : listDeploymentsFirst gh ri (deployTask dep) (deployEnvironment dep) with
  | none => by_cases hc : code = 201 <;> simp [hD, hc]
  | some d => simp [hD]; split <;> rfl

theorem deploymentPhase_deployments (gh : GitHubState) (now code : Nat) (ri : RepoInfo)
    (dep : NetlifyDeploy) :
    (deploymentPhase gh now code ri dep).2.1.deployments =
      (match listDeploymentsFirst gh ri (deployTask dep) (deployEnvironment dep) with
       | none =>
         if code = 201 then newDeploymentRec ri dep gh now :: gh.deployments
         else gh.deployments
       | some _ => gh.deployments) := by
  unfold deploymentPhase
  cases hD : listDeploymentsFirst gh ri (deployTask dep) (deployEnvironment dep) with
  | none => by_cases hc : code = 201 <;> simp [hD, hc]
  | some d => simp [hD]; split <;> rfl

theorem deploymentPhase_writes (gh : GitHubState) (now code : Nat) (ri : RepoInfo)
    (dep : NetlifyDeploy) :
    (deploymentPhase gh now code ri dep).2.2 =
      (match listDeploymentsFirst gh ri (deployTask dep) (deployEnvironment dep) with
       | none =>
         if code = 201 then
           [WriteOp.createDeployment (newDeploymentRec ri dep gh now),
            WriteOp.deploymentStatus (newDeploymentStatusRec ri gh.nextDeploymentId dep)]
         else []
       | some d =>
         if d.updated_at ≤ notifTimestamp dep then
           [WriteOp.deploymentStatus (newDeploymentStatusRec ri d.id dep)]
         else []) := by
  unfold deploymentPhase
  cases hD : listDeploymentsFirst gh ri (deployTask dep) (deployEnvironment dep) with
  | none => by_cases hc : code = 201 <;> simp [hD, hc, newDeploymentRec]
  | some d => by_cases hle : d.updated_at ≤ notifTimestamp dep <;> simp [hD, hle]

theorem reconcileStatuses_writes (gh : GitHubState) (now code : Nat) (ri : RepoInfo)
    (dep : NetlifyDeploy) :
    (reconcileStatuses gh now code ri dep).2.2 =
      (commitStatusPhase gh now ri dep).2 ++
        (deploymentPhase (commitStatusPhase gh now ri dep).1 now code ri dep).2.2 := rfl

theorem reconcileStatuses_state (gh : GitHubState) (now code : Nat) (ri : RepoInfo)
    (dep : NetlifyDeploy) :
    (reconcileStatuses gh now code ri dep).2.1 =
      (deploymentPhase (commitStatusPhase gh now ri dep).1 now code ri dep).2.1 := rfl

end NGS

namespace NGS

/-! ### Derived lemmas about the composed reconciler -/

theorem deploymentPhase_hasCommitWrite (gh : GitHubState) (now code : Nat)
    (ri : RepoInfo) (dep : NetlifyDeploy) :
    hasCommitStatusWrite (deploymentPhase gh now code ri dep).2.2 = false := by
  unfold hasCommitStatusWrite
  rw [deploymentPhase_writes]
  cases hD : listDeploymentsFirst gh ri (deployTask dep) (deployEnvironment dep) with
  | none => by_cases hc : code = 201 <;> simp [hc, WriteOp.isCommitStatus]
  | some d =>
    by_cases hle : d.updated_at ≤ notifTimestamp dep <;>
      simp [hle, WriteOp.isCommitStatus]

theorem commitStatusPhase_hasDeployWrite (gh : GitHubState) (now : Nat)
    (ri : RepoInfo) (dep : NetlifyDeploy) :
    hasDeploymentStatusWrite (commitStatusPhase gh now ri dep).2 = false := by
  unfold hasDeploymentStatusWrite
  rw [commitStatusPhase_snd]
  split <;> simp [WriteOp.isDeploymentStatus]

theorem reconcileStatuses_hasCommitWrite (gh : GitHubState) (now code : Nat)
    (ri : RepoInfo) (dep : NetlifyDeploy) :
    hasCommitStatusWrite (reconcileStatuses gh now code ri dep).2.2 =
      commitWriteCond gh ri dep := by
  unfold hasCommitStatusWrite
  rw [reconcileStatuses_writes, List.any_append]
  have h2 := deploymentPhase_hasCommitWrite (commitStatusPhase gh now ri dep).1 now code ri dep
  unfold hasCommitStatusWrite at h2
  rw [h2, commitStatusPhase_snd]
  split <;> simp_all [WriteOp.isCommitStatus]

theorem reconcileStatuses_hasDeployWrite (gh : GitHubState) (now code : Nat)
    (ri : RepoInfo) (dep : NetlifyDeploy) :
    hasDeploymentStatusWrite (reconcileStatuses gh now code ri dep).2.2 =
      (match listDeploymentsFirst gh ri (deployTask dep) (deployEnvironment dep) with
       | none => decide (code = 201)
       | some d => decide (d.updated_at ≤ notifTimestamp dep)) := by
  unfold hasDeploymentStatusWrite
  rw [reconcileStatuses_writes, List.any_append]
  have h1 := commitStatusPhase_hasDeployWrite gh now ri dep
  unfold hasDeploymentStatusWrite at h1
  rw [h1]
  rw [deploymentPhase_writes, listDeploymentsFirst_commitStatusPhase]
  cases hD : listDeploymentsFirst gh ri (deployTask dep) (deployEnvironment dep) with
  | none => by_cases hc : code = 201 <;> simp [hc, WriteOp.isDeploymentStatus]
  | some d =>
    by_cases hle : d.updated_at ≤ notifTimestamp dep <;>
      simp [hle, WriteOp.isDeploymentStatus]

theorem reconcileStatuses_statuses (gh : GitHubState) (now code : Nat)
    (ri : RepoInfo) (dep : NetlifyDeploy) :
    (reconcileStatuses gh now code ri dep).2.1.statuses =
      if commitWriteCond gh ri dep then newCommitStatusRec ri dep now :: gh.statuses
      else gh.statuses := by
  rw [reconcileStatuses_state, deploymentPhase_statuses, commitStatusPhase_statuses]

theorem reconcileStatuses_deployments (gh : GitHubState) (now code : Nat)
    (ri : RepoInfo) (dep : NetlifyDeploy) :
    (reconcileStatuses gh now code ri dep).2.1.deployments =
      (match listDeploymentsFirst gh ri (deployTask dep) (deployEnvironment dep) with
       | none =>
         if code = 201 then newDeploymentRec ri dep gh now :: gh.deployments
         else gh.deployments
       | some _ => gh.deployments) := by
  rw [reconcileStatuses_state, deploymentPhase_deployments,
    listDeploymentsFirst_commitStatusPhase, newDeploymentRec_commitStatusPhase,
    commitStatusPhase_deployments]

theorem getCommitStatusByContext_congr (gh1 gh2 : GitHubState) (ri : RepoInfo)
    (sha ctx : String) (h : gh1.statuses = gh2.statuses) :
    getCommitStatusByContext gh1 ri sha ctx = getCommitStatusByContext gh2 ri sha ctx := by
  unfold getCommitStatusByContext
  rw [h]

theorem countDeployments_congr (gh1 gh2 : GitHubState) (ri : RepoInfo)
    (t e : String) (h : gh1.deployments = gh2.deployments) :
    countDeployments gh1 ri t e = countDeployments gh2 ri t e := by
  unfold countDeployments
  rw [h]

theorem countDeployments_zero_find (gh : GitHubState) (ri : RepoInfo)
    (t e : String) (h : countDeployments gh ri t e = 0) :
    listDeploymentsFirst gh ri t e = none := by
  unfold countDeployments at h
  unfold listDeploymentsFirst
  rw [List.find?_eq_none]
  intro x hx
  have hnil := List.length_eq_zero.mp h
  have := List.filter_eq_nil_iff.mp hnil x hx
  simpa using this

end NGS

namespace NGS

/-! ### Claim theorems -/

/-- C5: State Mapper default-to-failure — every external state outside
{"building", "ready"} maps to the failure/error variant in both the
commit-status map and the deployment-status map (never pending,
in_progress or success); "building" maps to pending resp. in_progress
and "ready" maps to success in both. -/
theorem spec_c5 :
    (∀ s : String, s ≠ "building" → s ≠ "ready" →
      (mapCommitState s = "failure" ∨ mapCommitState s = "error") ∧
      mapCommitState s ≠ "pending" ∧ mapCommitState s ≠ "success" ∧
      (mapDeploymentState s = "failure" ∨ mapDeploymentState s = "error") ∧
      mapDeploymentState s ≠ "in_progress" ∧ mapDeploymentState s ≠ "success") ∧
    mapCommitState "building" = "pending" ∧
    mapDeploymentState "building" = "in_progress" ∧
    mapCommitState "ready" = "success" ∧
    mapDeploymentState "ready" = "success" := by
  refine ⟨?_, by decide, by decide, by decide, by decide⟩
  intro s h1 h2
  simp only [mapCommitState, mapDeploymentState, if_neg h1, if_neg h2]
  rcases eq_or_ne s "error" with he | he
  · subst he
    exact ⟨Or.inl (by decide), by decide, by decide, Or.inl (by decide), by decide, by decide⟩
  · simp only [if_neg he]
    exact ⟨Or.inr trivial, by decide, by decide, Or.inr trivial, by decide, by decide⟩

/-- Witness for C5 at the concrete unknown state "canceled". -/
theorem spec_c5_witness :
    ("canceled" : String) ≠ "building" ∧ ("canceled" : String) ≠ "ready" ∧
    ((mapCommitState "canceled" = "failure" ∨ mapCommitState "canceled" = "error") ∧
     mapCommitState "canceled" ≠ "pending" ∧ mapCommitState "canceled" ≠ "success" ∧
     (mapDeploymentState "canceled" = "failure" ∨ mapDeploymentState "canceled" = "error") ∧
     mapDeploymentState "canceled" ≠ "in_progress" ∧
     mapDeploymentState "canceled" ≠ "success") :=
  ⟨by decide, by decide, spec_c5.1 "canceled" (by decide) (by decide)⟩

/-- C7 counterexample: the description generator ignores the context —
for state "building" it returns "Deploying...", not the claimed
"Deploying to production...". -/
theorem spec_c7_counterexample :
    getCommitStatusDescription "building" none = "Deploying..." ∧
    getCommitStatusDescription "building" none ≠ "Deploying to production..." :=
  ⟨rfl, by decide⟩

/-- C7 (amended): the generated descriptions contain no context label —
"building" yields "Deploying...", "ready" yields
"Deployment successful!", and any other state yields
"Deployment failed : <error_message>" when a message is present and
"Deployment failed ." when absent (note the space after "failed"). -/
theorem spec_c7 :
    (∀ em : Option String, getCommitStatusDescription "building" em = "Deploying...") ∧
    (∀ em : Option String, getCommitStatusDescription "ready" em = "Deployment successful!") ∧
    (∀ s m : String, s ≠ "building" → s ≠ "ready" →
      getCommitStatusDescription s (some m) = "Deployment failed : " ++ m) ∧
    (∀ s : String, s ≠ "building" → s ≠ "ready" →
      getCommitStatusDescription s none = "Deployment failed .") := by
  refine ⟨fun em => rfl, fun em => rfl, ?_, ?_⟩
  · intro s m h1 h2
    unfold getCommitStatusDescription
    split <;> simp_all
    rw [← String.append_assoc]
    congr 1
  · intro s h1 h2
    unfold getCommitStatusDescription
    split <;> simp_all

/-- Witness for C7 at the concrete failed state with an error message. -/
theorem spec_c7_witness :
    ("failed" : String) ≠ "building" ∧ ("failed" : String) ≠ "ready" ∧
    getCommitStatusDescription "failed" (some "boom") = "Deployment failed : boom" :=
  ⟨by decide, by decide, spec_c7.2.2.1 "failed" "boom" (by decide) (by decide)⟩

/-- C9: Error boundary — a thrown classified `Response` is converted to
its carried status code and message (logged at debug level when the code
is 200 and at error level otherwise), a plain error is converted to
status 500 with its message (logged at error level), every log line is
tagged with the per-invocation request id, and the exported handler is
exactly this conversion applied to whatever `innerHandler` throws. -/
theorem spec_c9 :
    ∀ (reqId : String) (r : Response) (msg : String)
      (w : World) (gh : GitHubState) (event : HandlerEvent),
      handleThrown reqId (Thrown.resp r) =
        ({ statusCode := r.code, body := some r.message },
         [((if r.code = 200 then LogLevel.debug else LogLevel.error),
           "[" ++ reqId ++ "] " ++ r.message)]) ∧
      handleThrown reqId (Thrown.jsErr msg) =
        ({ statusCode := 500, body := some msg },
         [(LogLevel.error, "[" ++ reqId ++ "] " ++ msg)]) ∧
      handler w gh reqId event =
        ((handleThrown reqId (innerHandler w gh event).1).1,
         (handleThrown reqId (innerHandler w gh event).1).2,
         (innerHandler w gh event).2.1) := by
  intro reqId r msg w gh event
  refine ⟨?_, rfl, rfl⟩
  by_cases hc : r.code = 200 <;> simp [handleThrown, hc]

/-- C10: with no webhook secret configured, `verifyAndParse` keeps only
the deploy id of the parsed payload (so the resulting deploy's state is
null), and `fetchNetlifyDeploy` therefore resolves the deploy live from
the Netlify API by id, raising a classified 502 `Response` when that
fetch is not OK — no field other than the id ever comes from the
unauthenticated request body. -/
theorem spec_c10 :
    ∀ (w : World) (event : HandlerEvent) (body : String) (d : NetlifyDeploy) (i : String),
      w.secret = none → event.body = some body → w.parseBody body = some d → d.id = some i →
      verifyAndParse w.secret w.validateSignature w.parseBody event = .ok { id := some i } ∧
      ({ id := some i : NetlifyDeploy }).state = none ∧
      fetchNetlifyDeploy w.fetchDeploy { id := some i } =
        (match w.fetchDeploy i with
         | .ok dep => .ok dep
         | .notOk status =>
           .error { message := "Failed to fetch deploy details from Netlify API: " ++
                      toString status,
                    code := 502 }) := by
  intro w ev body d i hs hb hp hid
  refine ⟨?_, rfl, ?_⟩
  · unfold verifyAndParse
    rw [hb]
    simp [hs, hp, hid]
  · unfold fetchNetlifyDeploy
    simp

/-- Witness for C10: a parsed body carrying extra fields is reduced to
its id alone when no secret is configured. -/
theorem spec_c10_witness :
    (({ secret := none,
        parseBody := fun _ =>
          some { id := some "x", state := some "ready", branch := some "evil" } } : World)).secret = none ∧
    (({ body := some "payload" } : HandlerEvent)).body = some "payload" ∧
    (({ secret := none,
        parseBody := fun _ =>
          some { id := some "x", state := some "ready", branch := some "evil" } } : World)).parseBody "payload" =
      some { id := some "x", state := some "ready", branch := some "evil" } ∧
    (({ id := some "x", state := some "ready", branch := some "evil" } : NetlifyDeploy)).id = some "x" ∧
    (verifyAndParse none
      (({ secret := none,
          parseBody := fun _ =>
            some { id := some "x", state := some "ready", branch := some "evil" } } : World)).validateSignature
      (fun _ => some { id := some "x", state := some "ready", branch := some "evil" })
      { body := some "payload" } = .ok { id := some "x" }) := by
  refine ⟨rfl, rfl, rfl, rfl, ?_⟩
  exact (spec_c10
    { secret := none,
      parseBody := fun _ =>
        some { id := some "x", state := some "ready", branch := some "evil" } }
    { body := some "payload" } "payload"
    { id := some "x", state := some "ready", branch := some "evil" } "x"
    rfl rfl rfl rfl).1

end NGS

namespace NGS

/-- C6 counterexample: on a string the URL parser rejects (modelling the
`TypeError` thrown by `new URL`), the Identity Resolver fails with an
uncaught plain error, not with one of the code's classified `Response`
errors. -/
theorem spec_c6_counterexample :
    parseRepoInfoFromCommitUrl (fun _ => none) "not a url" =
      .error (.jsErr "Invalid URL: not a url") ∧
    isClassifiedError (parseRepoInfoFromCommitUrl (fun _ => none) "not a url") = false :=
  ⟨rfl, rfl⟩

/-- C6 (amended): when the URL parses with host "github.com" and at
least 3 non-empty path segments whose 3rd is "commit", the resolver
returns exactly (owner, repo) from segments 1 and 2; a host or
path-shape mismatch throws the classified "Unable to parse commit url"
`Response` (code 500); an unparseable URL string propagates the URL
constructor's plain `TypeError` unclassified. -/
theorem spec_c6 :
    (∀ (parseURL : String → Option URLParts) (s : String) (url : URLParts)
       (owner repo : String) (rest : List String),
       parseURL s = some url → url.hostname = "github.com" →
       pathSegments url.pathname = owner :: repo :: "commit" :: rest →
       parseRepoInfoFromCommitUrl parseURL s = .ok { owner := owner, repo := repo }) ∧
    (∀ (parseURL : String → Option URLParts) (s : String) (url : URLParts),
       parseURL s = some url → url.hostname ≠ "github.com" →
       parseRepoInfoFromCommitUrl parseURL s =
         .error (.resp { message := "Unable to parse commit url " ++ s, code := 500 })) ∧
    (∀ (parseURL : String → Option URLParts) (s : String) (url : URLParts),
       parseURL s = some url → url.hostname = "github.com" →
       (∀ (owner repo : String) (rest : List String),
         pathSegments url.pathname ≠ owner :: repo :: "commit" :: rest) →
       parseRepoInfoFromCommitUrl parseURL s =
         .error (.resp { message := "Unable to parse commit url " ++ s, code := 500 })) ∧
    (∀ (parseURL : String → Option URLParts) (s : String),
       parseURL s = none →
       parseRepoInfoFromCommitUrl parseURL s = .error (.jsErr ("Invalid URL: " ++ s))) := by
  refine ⟨?_, ?_, ?_, ?_⟩
  · intro parseURL s url owner repo rest hp hh hf
    unfold parseRepoInfoFromCommitUrl
    rw [hp]
    simp only [hh, if_true]
    rw [hf]
    simp
  · intro parseURL s url hp hh
    unfold parseRepoInfoFromCommitUrl
    rw [hp]
    simp only [if_neg hh]
  · intro parseURL s url hp hh hshape
    unfold parseRepoInfoFromCommitUrl
    rw [hp]
    simp only [hh, if_true]
    split
    · rename_i owner repo c rest heq
      by_cases hc : c = "commit"
      · exact absurd (hc ▸ heq) (hshape owner repo rest)
      · rw [if_neg hc]
    · rfl
  · intro parseURL s hp
    unfold parseRepoInfoFromCommitUrl
    rw [hp]

/-- Witness for C6 at a concrete well-formed commit URL. -/
theorem spec_c6_witness :
    ((fun u => if u = "https://github.com/o/r/commit/abc" then
        some ({ hostname := "github.com", pathname := "/o/r/commit/abc" } : URLParts)
      else none) "https://github.com/o/r/commit/abc" =
        some { hostname := "github.com", pathname := "/o/r/commit/abc" }) ∧
    (({ hostname := "github.com", pathname := "/o/r/commit/abc" } : URLParts)).hostname =
      "github.com" ∧
    pathSegments "/o/r/commit/abc" = ["o", "r", "commit", "abc"] ∧
    parseRepoInfoFromCommitUrl
      (fun u => if u = "https://github.com/o/r/commit/abc" then
        some ({ hostname := "github.com", pathname := "/o/r/commit/abc" } : URLParts)
      else none)
      "https://github.com/o/r/commit/abc" = .ok { owner := "o", repo := "r" } := by
  refine ⟨by decide, rfl, by decide, ?_⟩
  exact spec_c6.1
    (fun u => if u = "https://github.com/o/r/commit/abc" then
      some ({ hostname := "github.com", pathname := "/o/r/commit/abc" } : URLParts)
    else none)
    "https://github.com/o/r/commit/abc"
    { hostname := "github.com", pathname := "/o/r/commit/abc" }
    "o" "r" ["abc"] (by decide) rfl (by decide)

end NGS

namespace NGS

/-- C4: Orchestrator skip/short-circuit policy, ordered and
first-match-wins — missing body yields a 400 `Response`; with a secret
configured, a missing or invalid signature yields a 401; a missing
deploy id in the parsed payload yields a 400; a null state, commit_ref,
commit_url, branch or site name on the resolved deploy yields a 200
"Skipped: No commit reference."; a "deploy-preview" context yields a
200 "Skipped: Deploy preview." — and in every one of these cases no
remote write is performed and the GitHub state is unchanged. -/
theorem spec_c4 :
    (∀ (w : World) (gh : GitHubState) (event : HandlerEvent),
      event.body = none →
      innerHandler w gh event =
        (.resp { message := "Request body is empty.", code := 400 }, gh, [])) ∧
    (∀ (w : World) (gh : GitHubState) (event : HandlerEvent) (b sec : String),
      event.body = some b → w.secret = some sec → event.signature = none →
      innerHandler w gh event =
        (.resp { message := "Request is missing the x-webhook-signature header.", code := 401 },
         gh, [])) ∧
    (∀ (w : World) (gh : GitHubState) (event : HandlerEvent) (b sec sig : String),
      event.body = some b → w.secret = some sec → event.signature = some sig →
      w.validateSignature sig sec b = false →
      innerHandler w gh event =
        (.resp { message := "Invalid signature.", code := 401 }, gh, [])) ∧
    (∀ (w : World) (gh : GitHubState) (event : HandlerEvent) (b : String),
      event.body = some b →
      (w.secret = none ∨
        ∃ sec sig, w.secret = some sec ∧ event.signature = some sig ∧
          w.validateSignature sig sec b = true) →
      (w.parseBody b).bind NetlifyDeploy.id = none →
      innerHandler w gh event =
        (.resp { message := "Failed to get deploy ID from request body.", code := 400 },
         gh, [])) ∧
    (∀ (w : World) (gh : GitHubState) (event : HandlerEvent)
      (data deploy : NetlifyDeploy),
      verifyAndParse w.secret w.validateSignature w.parseBody event = .ok data →
      fetchNetlifyDeploy w.fetchDeploy data = .ok deploy →
      (deploy.state = none ∨ deploy.commit_ref = none ∨ deploy.commit_url = none ∨
        deploy.branch = none ∨ deploy.name = none) →
      innerHandler w gh event =
        (.resp { message := "Skipped: No commit reference.", code := 200 }, gh, [])) ∧
    (∀ (w : World) (gh : GitHubState) (event : HandlerEvent)
      (data deploy : NetlifyDeploy),
      verifyAndParse w.secret w.validateSignature w.parseBody event = .ok data →
      fetchNetlifyDeploy w.fetchDeploy data = .ok deploy →
      deploy.state ≠ none → deploy.commit_ref ≠ none → deploy.commit_url ≠ none →
      deploy.branch ≠ none → deploy.name ≠ none →
      deploy.context = some "deploy-preview" →
      innerHandler w gh event =
        (.resp { message := "Skipped: Deploy preview.", code := 200 }, gh, [])) := by
  refine ⟨?_, ?_, ?_, ?_, ?_, ?_⟩
  · intro w gh event hb
    unfold innerHandler verifyAndParse
    rw [hb]
  · intro w gh event b sec hb hs hsig
    unfold innerHandler verifyAndParse
    rw [hb]
    simp [hs, hsig]
  · intro w gh event b sec sig hb hs hsig hval
    unfold innerHandler verifyAndParse
    rw [hb]
    simp [hs, hsig, hval]
  · intro w gh event b hb hsig hid
    unfold innerHandler verifyAndParse
    rw [hb]
    rcases hsig with hnone | ⟨sec, sig, hs, hg, hv⟩
    · cases hpb : w.parseBody b with
      | none => simp [hnone, hpb]
      | some d =>
        rw [hpb] at hid
        have hid2 : d.id = none := hid
        simp [hnone, hpb, hid2]
    · cases hpb : w.parseBody b with
      | none => simp [hs, hg, hv, hpb]
      | some d =>
        rw [hpb] at hid
        have hid2 : d.id = none := hid
        simp [hs, hg, hv, hpb, hid2]
  · intro w gh event data deploy hvp hf hnull
    unfold innerHandler
    simp only [hvp, hf]
    unfold processDeploy
    rw [if_pos hnull]
  · intro w gh event data deploy hvp hf h1 h2 h3 h4 h5 hprev
    unfold innerHandler
    simp only [hvp, hf]
    unfold processDeploy
    rw [if_neg (by simp [h1, h2, h3, h4, h5]), if_pos hprev]

end NGS

namespace NGS

/-- Witness for C4: one concrete event/world per branch of the cascade. -/
theorem spec_c4_witness :
    (({} : HandlerEvent).body = none ∧
      innerHandler {} {} {} =
        (.resp { message := "Request body is empty.", code := 400 }, ({} : GitHubState), [])) ∧
    (({ body := some "b" } : HandlerEvent).signature = none ∧
      innerHandler { secret := some "s" } {} { body := some "b" } =
        (.resp { message := "Request is missing the x-webhook-signature header.", code := 401 },
         ({} : GitHubState), [])) ∧
    ((({ secret := some "s", validateSignature := fun _ _ _ => false } : World)).validateSignature
        "t" "s" "b" = false ∧
      innerHandler { secret := some "s", validateSignature := fun _ _ _ => false } {}
          { body := some "b", signature := some "t" } =
        (.resp { message := "Invalid signature.", code := 401 }, ({} : GitHubState), [])) ∧
    (((({ secret := none, parseBody := fun _ => none } : World)).parseBody "b").bind
        NetlifyDeploy.id = none ∧
      innerHandler { secret := none, parseBody := fun _ => none } {} { body := some "b" } =
        (.resp { message := "Failed to get deploy ID from request body.", code := 400 },
         ({} : GitHubState), [])) ∧
    ((({ id := some "x", state := some "ready" } : NetlifyDeploy)).commit_ref = none ∧
      innerHandler
          { secret := none, parseBody := fun _ => some { id := some "x" },
            fetchDeploy := fun _ => .ok { id := some "x", state := some "ready" } } {}
          { body := some "b" } =
        (.resp { message := "Skipped: No commit reference.", code := 200 },
         ({} : GitHubState), [])) ∧
    ((({ id := some "x", state := some "ready", name := some "n", branch := some "m",
         commit_ref := some "c", commit_url := some "u",
         context := some "deploy-preview" } : NetlifyDeploy)).context = some "deploy-preview" ∧
      innerHandler
          { secret := none, parseBody := fun _ => some { id := some "x" },
            fetchDeploy := fun _ =>
              .ok { id := some "x", state := some "ready", name := some "n",
                    branch := some "m", commit_ref := some "c", commit_url := some "u",
                    context := some "deploy-preview" } } {}
          { body := some "b" } =
        (.resp { message := "Skipped: Deploy preview.", code := 200 },
         ({} : GitHubState), [])) := by
  refine ⟨⟨rfl, ?_⟩, ⟨rfl, ?_⟩, ⟨rfl, ?_⟩, ⟨rfl, ?_⟩, ⟨rfl, ?_⟩, ⟨rfl, ?_⟩⟩
  · exact spec_c4.1 {} {} {} rfl
  · exact spec_c4.2.1 { secret := some "s" } {} { body := some "b" } "b" "s" rfl rfl rfl
  · exact spec_c4.2.2.1 { secret := some "s", validateSignature := fun _ _ _ => false } {}
      { body := some "b", signature := some "t" } "b" "s" "t" rfl rfl rfl rfl
  · exact spec_c4.2.2.2.1 { secret := none, parseBody := fun _ => none } {}
      { body := some "b" } "b" rfl (Or.inl rfl) rfl
  · exact spec_c4.2.2.2.2.1
      { secret := none, parseBody := fun _ => some { id := some "x" },
        fetchDeploy := fun _ => .ok { id := some "x", state := some "ready" } } {}
      { body := some "b" } { id := some "x" } { id := some "x", state := some "ready" }
      rfl rfl (Or.inr (Or.inl rfl))
  · exact spec_c4.2.2.2.2.2
      { secret := none, parseBody := fun _ => some { id := some "x" },
        fetchDeploy := fun _ =>
          .ok { id := some "x", state := some "ready", name := some "n",
                branch := some "m", commit_ref := some "c", commit_url := some "u",
                context := some "deploy-preview" } } {}
      { body := some "b" } { id := some "x" }
      { id := some "x", state := some "ready", name := some "n", branch := some "m",
        commit_ref := some "c", commit_url := some "u", context := some "deploy-preview" }
      rfl rfl (by decide) (by decide) (by decide) (by decide) (by decide) rfl

end NGS

namespace NGS

/-- C1: Status Reconciler last-write-wins — a commit status is written
if and only if no status exists for the (commit, context) pair or the
existing one's creation timestamp is at most the notification
timestamp; and applying a newer-timestamped notification first (stamped
by a server clock not behind the notification) then an older one for
the same (commit, context) skips the older write and leaves the
newer-created status as the visible latest. -/
theorem spec_c1 :
    (∀ (gh : GitHubState) (now code : Nat) (ri : RepoInfo) (dep : NetlifyDeploy),
      hasCommitStatusWrite (reconcileStatuses gh now code ri dep).2.2 = true ↔
        (getCommitStatusByContext gh ri (dep.commit_ref.getD "") (statusContext dep) = none ∨
         ∃ s, getCommitStatusByContext gh ri (dep.commit_ref.getD "") (statusContext dep) =
             some s ∧ s.createdAt ≤ notifTimestamp dep)) ∧
    (∀ (gh : GitHubState) (ri : RepoInfo) (d1 d2 : NetlifyDeploy)
       (now1 now2 code1 code2 : Nat),
      d1.commit_ref = d2.commit_ref → d1.branch = d2.branch → d1.name = d2.name →
      notifTimestamp d1 < notifTimestamp d2 → notifTimestamp d2 ≤ now2 →
      commitWriteCond gh ri d2 = true →
      hasCommitStatusWrite
          (reconcileStatuses (reconcileStatuses gh now2 code2 ri d2).2.1
            now1 code1 ri d1).2.2 = false ∧
      getCommitStatusByContext
          (reconcileStatuses (reconcileStatuses gh now2 code2 ri d2).2.1
            now1 code1 ri d1).2.1
          ri (d1.commit_ref.getD "") (statusContext d1) =
        some (newCommitStatusRec ri d2 now2)) := by
  constructor
  · intro gh now code ri dep
    rw [reconcileStatuses_hasCommitWrite]
    unfold commitWriteCond
    cases hE : getCommitStatusByContext gh ri (dep.commit_ref.getD "") (statusContext dep) with
    | none => simp
    | some s => simp
  · intro gh ri d1 d2 now1 now2 code1 code2 hcr hb hn hlt hle hcond2
    have hctx : statusContext d1 = statusContext d2 := by
      unfold statusContext; rw [hb, hn]
    have hsha : d1.commit_ref.getD "" = d2.commit_ref.getD "" := by rw [hcr]
    have h2s : (reconcileStatuses gh now2 code2 ri d2).2.1.statuses =
        newCommitStatusRec ri d2 now2 :: gh.statuses := by
      rw [reconcileStatuses_statuses, if_pos hcond2]
    have hL : getCommitStatusByContext (reconcileStatuses gh now2 code2 ri d2).2.1
        ri (d1.commit_ref.getD "") (statusContext d1) =
        some (newCommitStatusRec ri d2 now2) := by
      unfold getCommitStatusByContext
      rw [h2s]
      rw [List.find?_cons_of_pos]
      simp [newCommitStatusRec, hsha, hctx]
    have hcond1 : commitWriteCond (reconcileStatuses gh now2 code2 ri d2).2.1 ri d1 = false := by
      unfold commitWriteCond
      rw [hL]
      simp [newCommitStatusRec]
      omega
    refine ⟨?_, ?_⟩
    · rw [reconcileStatuses_hasCommitWrite]
      exact hcond1
    · have h1s : (reconcileStatuses (reconcileStatuses gh now2 code2 ri d2).2.1
          now1 code1 ri d1).2.1.statuses =
          (reconcileStatuses gh now2 code2 ri d2).2.1.statuses := by
        rw [reconcileStatuses_statuses, if_neg (by simp [hcond1])]
      rw [getCommitStatusByContext_congr _ _ _ _ _ h1s]
      exact hL

/-- C2: Deployment idempotency — two notifications with the same
external deploy id and environment, processed sequentially with
successful creation (201), leave exactly one deployment record for the
task token `deploy:netlify-<id>` and environment, starting from a store
with none. -/
theorem spec_c2 :
    ∀ (gh : GitHubState) (ri : RepoInfo) (d1 d2 : NetlifyDeploy) (now1 now2 : Nat),
      d1.id = d2.id → d1.branch = d2.branch → d1.name = d2.name →
      countDeployments gh ri (deployTask d1) (deployEnvironment d1) = 0 →
      countDeployments
          (reconcileStatuses (reconcileStatuses gh now1 201 ri d1).2.1 now2 201 ri d2).2.1
          ri (deployTask d1) (deployEnvironment d1) = 1 := by
  intro gh ri d1 d2 now1 now2 hid hb hn h0
  have htask : deployTask d2 = deployTask d1 := by unfold deployTask; rw [hid]
  have henv : deployEnvironment d2 = deployEnvironment d1 := by
    unfold deployEnvironment; rw [hb, hn]
  have h0find : listDeploymentsFirst gh ri (deployTask d1) (deployEnvironment d1) = none :=
    countDeployments_zero_find gh ri (deployTask d1) (deployEnvironment d1) h0
  have hd1 : (reconcileStatuses gh now1 201 ri d1).2.1.deployments =
      newDeploymentRec ri d1 gh now1 :: gh.deployments := by
    rw [reconcileStatuses_deployments, h0find]
    simp
  have hfind2 : listDeploymentsFirst (reconcileStatuses gh now1 201 ri d1).2.1
      ri (deployTask d2) (deployEnvironment d2) = some (newDeploymentRec ri d1 gh now1) := by
    unfold listDeploymentsFirst
    rw [hd1, htask, henv]
    rw [List.find?_cons_of_pos]
    simp [newDeploymentRec]
  have hd2 : (reconcileStatuses (reconcileStatuses gh now1 201 ri d1).2.1
      now2 201 ri d2).2.1.deployments =
      newDeploymentRec ri d1 gh now1 :: gh.deployments := by
    rw [reconcileStatuses_deployments, hfind2]
    exact hd1
  unfold countDeployments at h0 ⊢
  rw [hd2]
  rw [List.filter_cons_of_pos (by simp [newDeploymentRec])]
  simp [List.length_eq_zero.mp h0]

/-- C3: Deployment status write condition — with deployment creation
succeeding (201), a deployment status is written if and only if no
deployment previously existed for (task, environment) or the existing
deployment's own updated timestamp is at most the notification
timestamp; the comparison uses the parent deployment's updated
timestamp. -/
theorem spec_c3 :
    ∀ (gh : GitHubState) (now code : Nat) (ri : RepoInfo) (dep : NetlifyDeploy),
      code = 201 →
      (hasDeploymentStatusWrite (reconcileStatuses gh now code ri dep).2.2 = true ↔
        (listDeploymentsFirst gh ri (deployTask dep) (deployEnvironment dep) = none ∨
         ∃ d, listDeploymentsFirst gh ri (deployTask dep) (deployEnvironment dep) = some d ∧
           d.updated_at ≤ notifTimestamp dep)) := by
  intro gh now code ri dep hc
  rw [reconcileStatuses_hasDeployWrite]
  cases hD : listDeploymentsFirst gh ri (deployTask dep) (deployEnvironment dep) with
  | none => simp [hc]
  | some d => simp

/-- C8: Null-timestamp edge case — when the notification's updated
timestamp is null, both reconcilers compare against the epoch (0): the
commit-status write is skipped exactly when an existing status has
creation timestamp strictly later than epoch, and the deployment-status
write is skipped exactly when an existing deployment has updated
timestamp strictly later than epoch. -/
theorem spec_c8 :
    ∀ (gh : GitHubState) (now code : Nat) (ri : RepoInfo) (dep : NetlifyDeploy),
      dep.updated_at = none → code = 201 →
      (hasCommitStatusWrite (reconcileStatuses gh now code ri dep).2.2 = false ↔
        ∃ s, getCommitStatusByContext gh ri (dep.commit_ref.getD "") (statusContext dep) =
            some s ∧ 0 < s.createdAt) ∧
      (hasDeploymentStatusWrite (reconcileStatuses gh now code ri dep).2.2 = false ↔
        ∃ d, listDeploymentsFirst gh ri (deployTask dep) (deployEnvironment dep) = some d ∧
          0 < d.updated_at) := by
  intro gh now code ri dep hupd hc
  have hts : notifTimestamp dep = 0 := by unfold notifTimestamp; rw [hupd]; rfl
  constructor
  · rw [reconcileStatuses_hasCommitWrite]
    unfold commitWriteCond
    cases hE : getCommitStatusByContext gh ri (dep.commit_ref.getD "") (statusContext dep) with
    | none => simp
    | some s => simp [hts]; omega
  · rw [reconcileStatuses_hasDeployWrite]
    cases hD : listDeploymentsFirst gh ri (deployTask dep) (deployEnvironment dep) with
    | none => simp [hc]
    | some d => simp [hts]; omega

/-- Witness for C1: a fresh store, the timestamp-100 notification
applied at server time 105, then the timestamp-50 notification. -/
theorem spec_c1_witness :
    notifTimestamp sampleDeployT1 < notifTimestamp sampleDeployT2 ∧
    notifTimestamp sampleDeployT2 ≤ 105 ∧
    commitWriteCond {} sampleRepo sampleDeployT2 = true ∧
    (hasCommitStatusWrite
        (reconcileStatuses (reconcileStatuses {} 105 201 sampleRepo sampleDeployT2).2.1
          106 201 sampleRepo sampleDeployT1).2.2 = false ∧
      getCommitStatusByContext
          (reconcileStatuses (reconcileStatuses {} 105 201 sampleRepo sampleDeployT2).2.1
            106 201 sampleRepo sampleDeployT1).2.1
          sampleRepo (sampleDeployT1.commit_ref.getD "") (statusContext sampleDeployT1) =
        some (newCommitStatusRec sampleRepo sampleDeployT2 105)) :=
  ⟨by decide, by decide, by decide,
    spec_c1.2 {} sampleRepo sampleDeployT1 sampleDeployT2 106 105 201 201
      rfl rfl rfl (by decide) (by decide) (by decide)⟩

/-- Witness for C2: two notifications for the same deploy id and
environment applied to a fresh store leave one deployment. -/
theorem spec_c2_witness :
    countDeployments {} sampleRepo (deployTask sampleDeployT1)
        (deployEnvironment sampleDeployT1) = 0 ∧
    countDeployments
        (reconcileStatuses (reconcileStatuses {} 105 201 sampleRepo sampleDeployT1).2.1
          106 201 sampleRepo sampleDeployT2).2.1
        sampleRepo (deployTask sampleDeployT1) (deployEnvironment sampleDeployT1) = 1 :=
  ⟨by decide,
    spec_c2 {} sampleRepo sampleDeployT1 sampleDeployT2 105 106 rfl rfl rfl (by decide)⟩

/-- Witness for C3 on a fresh store. -/
theorem spec_c3_witness :
    (201 : Nat) = 201 ∧
    (hasDeploymentStatusWrite
        (reconcileStatuses {} 5 201 sampleRepo sampleDeployT2).2.2 = true ↔
      (listDeploymentsFirst {} sampleRepo (deployTask sampleDeployT2)
          (deployEnvironment sampleDeployT2) = none ∨
       ∃ d, listDeploymentsFirst {} sampleRepo (deployTask sampleDeployT2)
          (deployEnvironment sampleDeployT2) = some d ∧
         d.updated_at ≤ notifTimestamp sampleDeployT2)) :=
  ⟨rfl, spec_c3 {} 5 201 sampleRepo sampleDeployT2 rfl⟩

/-- Witness for C8 at a notification with a null timestamp. -/
theorem spec_c8_witness :
    sampleDeployNoTs.updated_at = none ∧
    (201 : Nat) = 201 ∧
    ((hasCommitStatusWrite
        (reconcileStatuses {} 7 201 sampleRepo sampleDeployNoTs).2.2 = false ↔
      ∃ s, getCommitStatusByContext {} sampleRepo (sampleDeployNoTs.commit_ref.getD "")
          (statusContext sampleDeployNoTs) = some s ∧ 0 < s.createdAt) ∧
     (hasDeploymentStatusWrite
        (reconcileStatuses {} 7 201 sampleRepo sampleDeployNoTs).2.2 = false ↔
      ∃ d, listDeploymentsFirst {} sampleRepo (deployTask sampleDeployNoTs)
          (deployEnvironment sampleDeployNoTs) = some d ∧ 0 < d.updated_at)) :=
  ⟨rfl, rfl, spec_c8 {} 7 201 sampleRepo sampleDeployNoTs rfl rfl⟩

end NGS
